import Mathlib

set_option linter.unusedVariables false

/-!
Verification of the frame-upload orchestrator of this repository.

Two script variants are embedded:
* `UF` models `upload_frames.py` (retrying upload helpers, success/fail
  counters, 2-unit pacing delay, `./frames/` directory);
* `MainPy` models `main.py` (single-attempt helpers, no counters, 4-unit
  pacing delay, `./frame/` directory).

Network responses, file existence and the feed-post response are supplied by
an explicit environment (`Env`); the observable side effects of a run (photo
posts, feed posts, sleeps, file removals) are recorded as an event trace.
-/

/-- Outcome of one HTTP request: a response with status code and the optional
`id` field of its JSON body, or a transport-level error
(`httpx.RequestError` / `requests` exception). -/
inductive NetResult where
  | resp (status : Nat) (ident : Option String)
  | transport
deriving DecidableEq, Repr

/-- `response.status_code == 200`. -/
def is200 : NetResult → Bool
  | .resp s _ => s == 200
  | .transport => false

/-- `response.json().get("id")`; a transport error has no body. -/
def respId : NetResult → Option String
  | .resp _ i => i
  | .transport => none

/-- Observable side effects of a run: a photo-endpoint POST (published or
unpublished) for a frame file, a feed POST carrying the attached media
handles together with the response it got, a `time.sleep`, an `os.remove`. -/
inductive Event where
  | photoPost (published : Bool) (path : String)
  | feedPost (handles : List String) (result : NetResult)
  | sleepFor (seconds : Nat)
  | removeFile (path : String)
deriving DecidableEq, Repr

/-- Environment of a run: `exists_frame i` is `os.path.exists` for frame `i`'s
file, `net i a` is the photo-endpoint response for frame `i`'s attempt `a`,
`flushNet hs` the feed-endpoint response for a multi-photo post with handles
`hs`, `caption_template` is `CAPTION_TEMPLATE.format`. -/
structure Env where
  exists_frame : Int → Bool
  net : Int → Nat → NetResult
  flushNet : List String → NetResult
  caption_template : String → String

/-- `MAX_PHOTOS_PER_POST = 4` (upload_frames.py line 22). -/
def MAX_PHOTOS_PER_POST : Nat := 4

/-- Left-pad with zeros to width `w` (Python zero padding). -/
def zfill (w : Nat) (s : String) : String :=
  if s.length < w then String.mk (List.replicate (w - s.length) '0') ++ s else s

/-- Python `f"{i:04}"`: zero-pad to total width 4, sign before the zeros. -/
def pyFormat04 (i : Int) : String :=
  if i < 0 then "-" ++ zfill 3 (toString (-i).toNat) else zfill 4 (toString i.toNat)

namespace UF

/-- Retry bound of the upload helpers (`retries=3` default). -/
def defaultRetries : Nat := 3

/-- `f"./frames/frame_{num}.jpg"` (upload_frames.py line 225). -/
def image_source (i : Int) : String := "./frames/frame_" ++ pyFormat04 i ++ ".jpg"

/-- The `for attempt in range(retries)` loop of `upload_single_photo_published`
(upload_frames.py lines 98-129): one POST per attempt; status 200 returns
`True` at once, any other status or a transport error sleeps 2 and moves to
the next attempt; exhausting attempts returns `False`. `attempt` is the index
of the current attempt, `fuel` the number of attempts left. -/
def publishAttempt (oracle : Nat → NetResult) (path : String) :
    Nat → Nat → Bool × List Event
  | _, 0 => (false, [])
  | attempt, fuel + 1 =>
    let ev := Event.photoPost true path
    if is200 (oracle attempt) then
      (true, [ev])
    else
      let r := publishAttempt oracle path (attempt + 1) fuel
      (r.1, ev :: Event.sleepFor 2 :: r.2)

/-- `upload_single_photo_published` of upload_frames.py (lines 87-129). -/
def upload_single_photo_published (oracle : Nat → NetResult) (image_src : String)
    (caption : String) (album_id : Option String) (retries : Nat) :
    Bool × List Event :=
  publishAttempt oracle image_src 0 retries

/-- The `for attempt in range(retries)` loop of
`upload_single_photo_unpublished` (upload_frames.py lines 142-177): status 200
with an `id` in the body returns the id at once; status 200 without an `id`
prints a message and, like a non-200 status or a transport error, falls
through to the `time.sleep(2)` and the next attempt; exhausting attempts
returns `None`. -/
def stageAttempt (oracle : Nat → NetResult) (path : String) :
    Nat → Nat → Option String × List Event
  | _, 0 => (none, [])
  | attempt, fuel + 1 =>
    let ev := Event.photoPost false path
    if is200 (oracle attempt) then
      match respId (oracle attempt) with
      | some media_fbid => (some media_fbid, [ev])
      | none =>
        let r := stageAttempt oracle path (attempt + 1) fuel
        (r.1, ev :: Event.sleepFor 2 :: r.2)
    else
      let r := stageAttempt oracle path (attempt + 1) fuel
      (r.1, ev :: Event.sleepFor 2 :: r.2)

/-- `upload_single_photo_unpublished` of upload_frames.py (lines 131-177). -/
def upload_single_photo_unpublished (oracle : Nat → NetResult) (image_src : String)
    (caption : String) (album_id : Option String) (retries : Nat) :
    Option String × List Event :=
  stageAttempt oracle image_src 0 retries

/-- `upload_multiple_photos` of upload_frames.py (lines 179-212): one feed
POST carrying the handles; the response is only printed, never acted on. -/
def upload_multiple_photos (flushOracle : List String → NetResult)
    (media_fbids : List String) (caption : String) : List Event :=
  [Event.feedPost media_fbids (flushOracle media_fbids)]

/-- Mutable state of `upload_frames` (upload_frames.py lines 218-220) plus the
event trace. -/
structure RunState where
  media_fbids : List String
  success_count : Nat
  fail_count : Nat
  events : List Event
deriving DecidableEq, Repr

/-- Initial state: empty buffer, zero counters. -/
def initState : RunState := ⟨[], 0, 0, []⟩

/-- Python truthiness of the `multi_photo` argument (`if multi_photo:`):
`None` and `0` are falsy. -/
def intTruthy : Option Int → Bool
  | none => false
  | some n => !(n == 0)

/-- `len(media_fbids) >= multi_photo` (upload_frames.py line 246). -/
def multiPhotoTrigger (multi_photo : Option Int) (len : Nat) : Bool :=
  match multi_photo with
  | some n => decide (n ≤ (len : Int))
  | none => false

/-- One iteration of the `for i in range(start, start+loop)` body of
`upload_frames` (upload_frames.py lines 222-257): pacing sleep, existence
check, dry-run branch, batch (stage + accumulate + threshold flush) branch,
single-publish branch. -/
def processFrame (env : Env) (album_id : Option String) (dry_run : Bool)
    (multi_photo : Option Int) (s : RunState) (i : Int) : RunState :=
  let s := { s with events := s.events ++ [Event.sleepFor 2] }
  let num := pyFormat04 i
  let image_src := image_source i
  if !(env.exists_frame i) then
    { s with fail_count := s.fail_count + 1 }
  else
    let caption := env.caption_template num
    if dry_run then
      { s with success_count := s.success_count + 1 }
    else if intTruthy multi_photo then
      let r := upload_single_photo_unpublished (env.net i) image_src caption
        album_id defaultRetries
      let s := { s with events := s.events ++ r.2 }
      let s :=
        match r.1 with
        | some media_fbid =>
          { s with
              media_fbids := s.media_fbids ++ [media_fbid],
              events := s.events ++ [Event.removeFile image_src],
              success_count := s.success_count + 1 }
        | none => s
      if multiPhotoTrigger multi_photo s.media_fbids.length then
        { s with
            events := s.events ++ upload_multiple_photos env.flushNet
              (s.media_fbids.take MAX_PHOTOS_PER_POST) caption,
            media_fbids := [] }
      else s
    else
      let r := upload_single_photo_published (env.net i) image_src caption
        album_id defaultRetries
      let s := { s with events := s.events ++ r.2 }
      if r.1 then
        { s with
            events := s.events ++ [Event.removeFile image_src],
            success_count := s.success_count + 1 }
      else
        { s with fail_count := s.fail_count + 1 }

/-- `range(start_frame, start_frame + loop_count)` as a list of `Int`
(empty when `loop_count ≤ 0`). -/
def frameIndices (start_frame loop_count : Int) : List Int :=
  (List.range loop_count.toNat).map (fun k : Nat => start_frame + (k : Int))

/-- `upload_frames` of upload_frames.py (lines 214-266): the per-frame loop
followed by the end-of-run remainder flush
(`if multi_photo and media_fbids:`). -/
def upload_frames (env : Env) (start_frame loop_count : Int)
    (album_id : Option String) (dry_run : Bool) (multi_photo : Option Int) :
    RunState :=
  let s := (frameIndices start_frame loop_count).foldl
    (processFrame env album_id dry_run multi_photo) initState
  if intTruthy multi_photo && !s.media_fbids.isEmpty then
    { s with
        events := s.events ++ upload_multiple_photos env.flushNet
          (s.media_fbids.take MAX_PHOTOS_PER_POST) "Uploaded frames" }
  else s

/-- Command-line arguments of upload_frames.py (`setup_argument_parser`). -/
structure Args where
  start : Int
  loop : Int
  album : Option String
  dry_run : Bool
  multi_photo : Option Int

/-- The startup validation
`args.multi_photo and (args.multi_photo < 1 or args.multi_photo > MAX_PHOTOS_PER_POST)`
(upload_frames.py line 274): Python `and` makes the whole test falsy when
`multi_photo` is `None` or `0`. -/
def multi_photo_invalid : Option Int → Bool
  | none => false
  | some n => !(n == 0) && (decide (n < 1) || decide ((MAX_PHOTOS_PER_POST : Int) < n))

/-- `main` of upload_frames.py (lines 268-284): exit code 1 with no run when
the validation rejects, otherwise the run followed by the completion marker
and exit code 0. -/
def mainResult (env : Env) (args : Args) : Nat × Option RunState :=
  if multi_photo_invalid args.multi_photo then (1, none)
  else (0, some (upload_frames env args.start args.loop args.album args.dry_run
    args.multi_photo))

end UF

namespace MainPy

/-- `f"./frame/frame_{num}.jpg"` (main.py line 123). -/
def image_source (i : Int) : String := "./frame/frame_" ++ pyFormat04 i ++ ".jpg"

/-- `upload_single_photo_published` of main.py (lines 43-64): a single POST,
`True` exactly on status 200, `False` on any other status and on an
exception. -/
def upload_single_photo_published (r : NetResult) (image_src : String)
    (caption : String) (album_id : Option String) : Bool × List Event :=
  (is200 r, [Event.photoPost true image_src])

/-- `upload_single_photo_unpublished` of main.py (lines 67-92): a single POST;
on status 200 the body `id` (or `None` when the field is missing), `None`
otherwise. -/
def upload_single_photo_unpublished (r : NetResult) (image_src : String)
    (caption : String) (album_id : Option String) : Option String × List Event :=
  (if is200 r then respId r else none, [Event.photoPost false image_src])

/-- `upload_multiple_photos` of main.py (lines 95-113). -/
def upload_multiple_photos (flushOracle : List String → NetResult)
    (media_fbids : List String) (caption : String) : List Event :=
  [Event.feedPost media_fbids (flushOracle media_fbids)]

/-- State of main.py's `upload_frames` (line 117): the handle buffer (there
are no counters in this variant) plus the event trace. -/
structure St where
  media_fbids : List String
  events : List Event
deriving DecidableEq, Repr

/-- `max_photos_per_post = 4` (main.py line 118). -/
def max_photos_per_post : Nat := 4

/-- One iteration of main.py's upload loop (lines 120-152): pacing sleep of 4,
existence check (`continue`, nothing recorded), dry-run `continue`, batch
branch (single-attempt stage, append + delete on success, threshold flush),
single-publish branch (single attempt, delete on success, and on failure the
loop simply continues to the next frame). -/
def processFrame (env : Env) (album_id : Option String) (dry_run : Bool)
    (multi_photo : Option Int) (s : St) (i : Int) : St :=
  let s := { s with events := s.events ++ [Event.sleepFor 4] }
  let num := pyFormat04 i
  let image_src := image_source i
  if !(env.exists_frame i) then
    s
  else
    let caption := env.caption_template num
    if dry_run then
      s
    else if UF.intTruthy multi_photo then
      let r := upload_single_photo_unpublished (env.net i 0) image_src caption album_id
      let s := { s with events := s.events ++ r.2 }
      let s :=
        match r.1 with
        | some media_fbid =>
          { s with
              media_fbids := s.media_fbids ++ [media_fbid],
              events := s.events ++ [Event.removeFile image_src] }
        | none => s
      if UF.multiPhotoTrigger multi_photo s.media_fbids.length then
        { s with
            events := s.events ++ upload_multiple_photos env.flushNet
              (s.media_fbids.take max_photos_per_post) caption,
            media_fbids := [] }
      else s
    else
      let r := upload_single_photo_published (env.net i 0) image_src caption album_id
      let s := { s with events := s.events ++ r.2 }
      if r.1 then
        { s with events := s.events ++ [Event.removeFile image_src] }
      else s

/-- `upload_frames` of main.py (lines 116-156): the loop followed by the
remainder flush. -/
def upload_frames (env : Env) (start_frame loop_count : Int)
    (album_id : Option String) (dry_run : Bool) (multi_photo : Option Int) : St :=
  let s := (UF.frameIndices start_frame loop_count).foldl
    (processFrame env album_id dry_run multi_photo) ⟨[], []⟩
  if UF.intTruthy multi_photo && !s.media_fbids.isEmpty then
    { s with
        events := s.events ++ upload_multiple_photos env.flushNet
          (s.media_fbids.take max_photos_per_post) "Uploaded frames" }
  else s

end MainPy

/-- Feed-post payloads (`flush_batch` calls) extracted from a trace, in
order. -/
def flushCalls (evs : List Event) : List (List String) :=
  evs.filterMap (fun e => match e with | .feedPost hs _ => some hs | _ => none)

/-- File paths removed by `os.remove`, in order. -/
def removedPaths (evs : List Event) : List String :=
  evs.filterMap (fun e => match e with | .removeFile p => some p | _ => none)

/-- Photo-endpoint POSTs in a trace, in order: publish flag and file path. -/
def photoPosts (evs : List Event) : List (Bool × String) :=
  evs.filterMap (fun e => match e with | .photoPost b p => some (b, p) | _ => none)

/-- Number of network calls (photo POSTs plus feed POSTs) in a trace. -/
def netCalls (evs : List Event) : Nat :=
  (evs.filter (fun e => match e with
    | .photoPost _ _ => true
    | .feedPost _ _ => true
    | _ => false)).length

/-- The result component of staging frame `i` with upload_frames.py's
retrying helper, as `processFrame` computes it; it depends only on the
per-frame response oracle. -/
def stageResult (env : Env) (album_id : Option String) (i : Int) : Option String :=
  (UF.upload_single_photo_unpublished (env.net i) (UF.image_source i)
    (env.caption_template (pyFormat04 i)) album_id UF.defaultRetries).1

/-- The result component of publishing frame `i` with upload_frames.py's
retrying helper. -/
def publishResult (env : Env) (album_id : Option String) (i : Int) : Bool :=
  (UF.upload_single_photo_published (env.net i) (UF.image_source i)
    (env.caption_template (pyFormat04 i)) album_id UF.defaultRetries).1

/-- Handles obtained by the frames of `l` that exist and stage successfully,
in frame order (batch mode, upload_frames.py). -/
def stagedIds (env : Env) (album_id : Option String) (l : List Int) : List String :=
  l.filterMap (fun i => if env.exists_frame i then stageResult env album_id i else none)


/-- The event-trace component of staging frame `i` with upload_frames.py's
retrying helper. -/
def stageEvents (env : Env) (album_id : Option String) (i : Int) : List Event :=
  (UF.upload_single_photo_unpublished (env.net i) (UF.image_source i)
    (env.caption_template (pyFormat04 i)) album_id UF.defaultRetries).2

/-- The event-trace component of publishing frame `i` with upload_frames.py's
retrying helper. -/
def publishEvents (env : Env) (album_id : Option String) (i : Int) : List Event :=
  (UF.upload_single_photo_published (env.net i) (UF.image_source i)
    (env.caption_template (pyFormat04 i)) album_id UF.defaultRetries).2

lemma flushCalls_append (a b : List Event) :
    flushCalls (a ++ b) = flushCalls a ++ flushCalls b := by
  simp [flushCalls]

lemma removedPaths_append (a b : List Event) :
    removedPaths (a ++ b) = removedPaths a ++ removedPaths b := by
  simp [removedPaths]

lemma photoPosts_append (a b : List Event) :
    photoPosts (a ++ b) = photoPosts a ++ photoPosts b := by
  simp [photoPosts]

lemma netCalls_append (a b : List Event) :
    netCalls (a ++ b) = netCalls a + netCalls b := by
  simp [netCalls]

/-- Every event a publish attempt emits is a photo POST or a sleep. -/
lemma publishAttempt_events_shape (oracle : Nat → NetResult) (p : String) :
    ∀ fuel attempt, ∀ e ∈ (UF.publishAttempt oracle p attempt fuel).2,
      e = Event.photoPost true p ∨ e = Event.sleepFor 2 := by
  intro fuel
  induction fuel with
  | zero => intro attempt e he; simp [UF.publishAttempt] at he
  | succ f ih =>
    intro attempt e he
    by_cases h : is200 (oracle attempt)
    · simp [UF.publishAttempt, h] at he
      exact Or.inl he
    · simp [UF.publishAttempt, h] at he
      rcases he with he | he | he
      · exact Or.inl he
      · exact Or.inr he
      · exact ih (attempt + 1) e he

/-- Every event a stage attempt emits is a photo POST or a sleep. -/
lemma stageAttempt_events_shape (oracle : Nat → NetResult) (p : String) :
    ∀ fuel attempt, ∀ e ∈ (UF.stageAttempt oracle p attempt fuel).2,
      e = Event.photoPost false p ∨ e = Event.sleepFor 2 := by
  intro fuel
  induction fuel with
  | zero => intro attempt e he; simp [UF.stageAttempt] at he
  | succ f ih =>
    intro attempt e he
    by_cases h : is200 (oracle attempt)
    · cases hr : respId (oracle attempt) with
      | some v =>
        simp [UF.stageAttempt, h, hr] at he
        exact Or.inl he
      | none =>
        simp [UF.stageAttempt, h, hr] at he
        rcases he with he | he | he
        · exact Or.inl he
        · exact Or.inr he
        · exact ih (attempt + 1) e he
    · simp [UF.stageAttempt, h] at he
      rcases he with he | he | he
      · exact Or.inl he
      · exact Or.inr he
      · exact ih (attempt + 1) e he

lemma flushCalls_publishEvents (env : Env) (album : Option String) (i : Int) :
    flushCalls (publishEvents env album i) = [] := by
  refine List.filterMap_eq_nil_iff.mpr ?_
  intro e he
  rcases publishAttempt_events_shape (env.net i) (UF.image_source i) _ _ e he with h | h <;>
    subst h <;> rfl

lemma flushCalls_stageEvents (env : Env) (album : Option String) (i : Int) :
    flushCalls (stageEvents env album i) = [] := by
  refine List.filterMap_eq_nil_iff.mpr ?_
  intro e he
  rcases stageAttempt_events_shape (env.net i) (UF.image_source i) _ _ e he with h | h <;>
    subst h <;> rfl

lemma removedPaths_publishEvents (env : Env) (album : Option String) (i : Int) :
    removedPaths (publishEvents env album i) = [] := by
  refine List.filterMap_eq_nil_iff.mpr ?_
  intro e he
  rcases publishAttempt_events_shape (env.net i) (UF.image_source i) _ _ e he with h | h <;>
    subst h <;> rfl

lemma removedPaths_stageEvents (env : Env) (album : Option String) (i : Int) :
    removedPaths (stageEvents env album i) = [] := by
  refine List.filterMap_eq_nil_iff.mpr ?_
  intro e he
  rcases stageAttempt_events_shape (env.net i) (UF.image_source i) _ _ e he with h | h <;>
    subst h <;> rfl

lemma pf_missing (env : Env) (album : Option String) (dry : Bool)
    (multi : Option Int) (s : UF.RunState) (i : Int)
    (h : env.exists_frame i = false) :
    UF.processFrame env album dry multi s i =
      ⟨s.media_fbids, s.success_count, s.fail_count + 1,
        s.events ++ [Event.sleepFor 2]⟩ := by
  simp [UF.processFrame, h]

lemma pf_dry (env : Env) (album : Option String) (multi : Option Int)
    (s : UF.RunState) (i : Int) (h : env.exists_frame i = true) :
    UF.processFrame env album true multi s i =
      ⟨s.media_fbids, s.success_count + 1, s.fail_count,
        s.events ++ [Event.sleepFor 2]⟩ := by
  simp [UF.processFrame, h]

lemma pf_single (env : Env) (album : Option String) (multi : Option Int)
    (s : UF.RunState) (i : Int) (h : env.exists_frame i = true)
    (hm : UF.intTruthy multi = false) :
    UF.processFrame env album false multi s i =
      if publishResult env album i then
        ⟨s.media_fbids, s.success_count + 1, s.fail_count,
          s.events ++ [Event.sleepFor 2] ++ publishEvents env album i
            ++ [Event.removeFile (UF.image_source i)]⟩
      else
        ⟨s.media_fbids, s.success_count, s.fail_count + 1,
          s.events ++ [Event.sleepFor 2] ++ publishEvents env album i⟩ := by
  by_cases hp : publishResult env album i
  · simp [UF.processFrame, h, hm, hp, publishResult, publishEvents] at *
  · simp only [publishResult] at hp
    simp [UF.processFrame, h, hm, hp, publishResult, publishEvents, Bool.not_eq_true] at *

lemma pf_batch_some (env : Env) (album : Option String) (n : Int)
    (s : UF.RunState) (i : Int) (ident : String) (h : env.exists_frame i = true)
    (hn : ¬n = 0) (hid : stageResult env album i = some ident) :
    UF.processFrame env album false (some n) s i =
      if n ≤ ((s.media_fbids.length + 1 : Nat) : Int) then
        ⟨[], s.success_count + 1, s.fail_count,
          s.events ++ [Event.sleepFor 2] ++ stageEvents env album i
            ++ [Event.removeFile (UF.image_source i)]
            ++ [Event.feedPost ((s.media_fbids ++ [ident]).take MAX_PHOTOS_PER_POST)
                  (env.flushNet ((s.media_fbids ++ [ident]).take MAX_PHOTOS_PER_POST))]⟩
      else
        ⟨s.media_fbids ++ [ident], s.success_count + 1, s.fail_count,
          s.events ++ [Event.sleepFor 2] ++ stageEvents env album i
            ++ [Event.removeFile (UF.image_source i)]⟩ := by
  simp only [stageResult] at hid
  simp [UF.processFrame, h, UF.intTruthy, hn, UF.multiPhotoTrigger, hid,
    stageEvents, UF.upload_multiple_photos]

lemma pf_batch_none (env : Env) (album : Option String) (n : Int)
    (s : UF.RunState) (i : Int) (h : env.exists_frame i = true)
    (hn : ¬n = 0) (hid : stageResult env album i = none) :
    UF.processFrame env album false (some n) s i =
      if n ≤ (s.media_fbids.length : Int) then
        ⟨[], s.success_count, s.fail_count,
          s.events ++ [Event.sleepFor 2] ++ stageEvents env album i
            ++ [Event.feedPost (s.media_fbids.take MAX_PHOTOS_PER_POST)
                  (env.flushNet (s.media_fbids.take MAX_PHOTOS_PER_POST))]⟩
      else
        ⟨s.media_fbids, s.success_count, s.fail_count,
          s.events ++ [Event.sleepFor 2] ++ stageEvents env album i⟩ := by
  simp only [stageResult] at hid
  simp [UF.processFrame, h, UF.intTruthy, hn, UF.multiPhotoTrigger, hid,
    stageEvents, UF.upload_multiple_photos]

/-- Frames of `l` that exist on disk but whose staged upload exhausts its
retries: in batch mode these increment neither counter. -/
def stageMissCount (env : Env) (album_id : Option String) (l : List Int) : Nat :=
  (l.filter (fun i => env.exists_frame i && (stageResult env album_id i).isNone)).length

lemma stageMissCount_cons (env : Env) (album : Option String) (i : Int) (l : List Int) :
    stageMissCount env album (i :: l) =
      (if env.exists_frame i && (stageResult env album i).isNone then 1 else 0)
        + stageMissCount env album l := by
  simp only [stageMissCount, List.filter_cons]
  split <;> simp [Nat.add_comm]

lemma filter_partition_length {α : Type} (p : α → Bool) (l : List α) :
    (l.filter p).length + (l.filter (fun a => !(p a))).length = l.length := by
  induction l with
  | nil => simp
  | cons a l ih =>
    by_cases h : p a <;> simp [List.filter_cons, h] <;> omega

/-- Dry-run fold: only the pacing sleeps happen; present frames count as
successes, missing ones as failures; the buffer is untouched. -/
lemma dry_fold (env : Env) (album : Option String) (multi : Option Int) :
    ∀ (l : List Int) (s : UF.RunState),
      l.foldl (UF.processFrame env album true multi) s =
        ⟨s.media_fbids,
          s.success_count + (l.filter (fun i => env.exists_frame i)).length,
          s.fail_count + (l.filter (fun i => !(env.exists_frame i))).length,
          s.events ++ List.replicate l.length (Event.sleepFor 2)⟩ := by
  intro l
  induction l with
  | nil => intro s; simp
  | cons i l ih =>
    intro s
    simp only [List.foldl_cons]
    by_cases hex : env.exists_frame i = true
    · rw [pf_dry env album multi s i hex, ih]
      simp [List.filter_cons, hex, List.replicate_succ]
      omega
    · rw [pf_missing env album true multi s i (by simpa using hex)]
      rw [ih]
      simp [List.filter_cons, hex, List.replicate_succ]
      omega

/-- Single-publish fold (counters): every frame increments exactly one of
the two counters. -/
lemma counters_fold_single (env : Env) (album : Option String) (multi : Option Int)
    (hm : UF.intTruthy multi = false) :
    ∀ (l : List Int) (s : UF.RunState),
      (l.foldl (UF.processFrame env album false multi) s).success_count
        + (l.foldl (UF.processFrame env album false multi) s).fail_count
      = s.success_count + s.fail_count + l.length := by
  intro l
  induction l with
  | nil => intro s; simp
  | cons i l ih =>
    intro s
    simp only [List.foldl_cons, List.length_cons]
    by_cases hex : env.exists_frame i = true
    · rw [pf_single env album multi s i hex hm]
      by_cases hp : publishResult env album i
      · rw [if_pos hp]
        have h2 := ih ⟨s.media_fbids, s.success_count + 1, s.fail_count,
          s.events ++ [Event.sleepFor 2] ++ publishEvents env album i
            ++ [Event.removeFile (UF.image_source i)]⟩
        simp at h2 ⊢
        omega
      · rw [if_neg hp]
        have h2 := ih ⟨s.media_fbids, s.success_count, s.fail_count + 1,
          s.events ++ [Event.sleepFor 2] ++ publishEvents env album i⟩
        simp at h2 ⊢
        omega
    · rw [pf_missing env album false multi s i (by simpa using hex)]
      have h2 := ih ⟨s.media_fbids, s.success_count, s.fail_count + 1,
        s.events ++ [Event.sleepFor 2]⟩
      simp at h2 ⊢
      omega

/-- Batch-mode fold (counters): a present frame whose stage fails increments
neither counter, every other frame increments exactly one. -/
lemma counters_fold_batch (env : Env) (album : Option String) (n : Int) (hn : ¬n = 0) :
    ∀ (l : List Int) (s : UF.RunState),
      (l.foldl (UF.processFrame env album false (some n)) s).success_count
        + (l.foldl (UF.processFrame env album false (some n)) s).fail_count
        + stageMissCount env album l
      = s.success_count + s.fail_count + l.length := by
  intro l
  induction l with
  | nil => intro s; simp [stageMissCount]
  | cons i l ih =>
    intro s
    simp only [List.foldl_cons, List.length_cons]
    rw [stageMissCount_cons]
    by_cases hex : env.exists_frame i = true
    · cases hid : stageResult env album i with
      | some ident =>
        rw [pf_batch_some env album n s i ident hex hn hid]
        by_cases hc : n ≤ ((s.media_fbids.length + 1 : Nat) : Int)
        · rw [if_pos hc]
          have h2 := ih ⟨[], s.success_count + 1, s.fail_count,
            s.events ++ [Event.sleepFor 2] ++ stageEvents env album i
              ++ [Event.removeFile (UF.image_source i)]
              ++ [Event.feedPost ((s.media_fbids ++ [ident]).take MAX_PHOTOS_PER_POST)
                    (env.flushNet ((s.media_fbids ++ [ident]).take MAX_PHOTOS_PER_POST))]⟩
          simp [hex, hid] at h2 ⊢
          omega
        · rw [if_neg hc]
          have h2 := ih ⟨s.media_fbids ++ [ident], s.success_count + 1, s.fail_count,
            s.events ++ [Event.sleepFor 2] ++ stageEvents env album i
              ++ [Event.removeFile (UF.image_source i)]⟩
          simp [hex, hid] at h2 ⊢
          omega
      | none =>
        rw [pf_batch_none env album n s i hex hn hid]
        by_cases hc : n ≤ (s.media_fbids.length : Int)
        · rw [if_pos hc]
          have h2 := ih ⟨[], s.success_count, s.fail_count,
            s.events ++ [Event.sleepFor 2] ++ stageEvents env album i
              ++ [Event.feedPost (s.media_fbids.take MAX_PHOTOS_PER_POST)
                    (env.flushNet (s.media_fbids.take MAX_PHOTOS_PER_POST))]⟩
          simp [hex, hid] at h2 ⊢
          omega
        · rw [if_neg hc]
          have h2 := ih ⟨s.media_fbids, s.success_count, s.fail_count,
            s.events ++ [Event.sleepFor 2] ++ stageEvents env album i⟩
          simp [hex, hid] at h2 ⊢
          omega
    · rw [pf_missing env album false (some n) s i (by simpa using hex)]
      have h2 := ih ⟨s.media_fbids, s.success_count, s.fail_count + 1,
        s.events ++ [Event.sleepFor 2]⟩
      simp [hex] at h2 ⊢
      omega

/-- The end-of-run remainder flush changes no counter and not the buffer
length check relevant to the counters. -/
lemma upload_frames_counters (env : Env) (start loop : Int) (album : Option String)
    (dry : Bool) (multi : Option Int) :
    (UF.upload_frames env start loop album dry multi).success_count
        = ((UF.frameIndices start loop).foldl
            (UF.processFrame env album dry multi) UF.initState).success_count
      ∧ (UF.upload_frames env start loop album dry multi).fail_count
        = ((UF.frameIndices start loop).foldl
            (UF.processFrame env album dry multi) UF.initState).fail_count := by
  unfold UF.upload_frames
  dsimp only
  split <;> exact ⟨rfl, rfl⟩

lemma frameIndices_length (start loop : Int) :
    (UF.frameIndices start loop).length = loop.toNat := by
  unfold UF.frameIndices
  rw [List.length_map, List.length_range]


/-- All frames exist; every photo POST hits a transport error; feed POSTs hit
transport errors too. -/
def envAllFailNet : Env :=
  ⟨fun _ => true, fun _ _ => NetResult.transport, fun _ => NetResult.transport,
    fun s => s⟩

/-- All frames exist; every photo POST succeeds with the frame number as
handle; feed POSTs succeed. -/
def envAllOk : Env :=
  ⟨fun _ => true, fun i _ => NetResult.resp 200 (some (pyFormat04 i)),
    fun _ => NetResult.resp 200 (some "post"), fun s => s⟩

/-- No frame file exists. -/
def envNoFiles : Env :=
  ⟨fun _ => false, fun _ _ => NetResult.transport, fun _ => NetResult.transport,
    fun s => s⟩

/-- C1 counterexample: a batch-mode run over one existing frame whose staged
upload exhausts its retries increments neither counter, so
`success_count + fail_count = 0 ≠ 1 = count`. -/
theorem spec_C1_cex :
    (UF.upload_frames envAllFailNet 0 1 none false (some 1)).success_count = 0
  ∧ (UF.upload_frames envAllFailNet 0 1 none false (some 1)).fail_count = 0
  ∧ (0 : Nat) + 0 ≠ (1 : Int).toNat := by
  refine ⟨rfl, rfl, by decide⟩

/-- C1 (amended): over the frame range, dry-run and single-publish runs
increment exactly one counter per frame, so `success + fail = count`; in
batch mode a present frame whose stage call fails increments neither counter,
so `success + fail + (number of such frames) = count`. -/
theorem spec_C1_thm (env : Env) (album : Option String) (start loop : Int)
    (dry : Bool) (multi : Option Int) :
    (UF.upload_frames env start loop album dry multi).success_count
      + (UF.upload_frames env start loop album dry multi).fail_count
      + (if dry then 0
         else if UF.intTruthy multi then
           stageMissCount env album (UF.frameIndices start loop)
         else 0)
    = loop.toNat := by
  obtain ⟨hs, hf⟩ := upload_frames_counters env start loop album dry multi
  rw [hs, hf]
  by_cases hd : dry = true
  · subst hd
    rw [dry_fold env album multi (UF.frameIndices start loop) UF.initState]
    have h3 := filter_partition_length (fun i => env.exists_frame i)
      (UF.frameIndices start loop)
    have h4 := frameIndices_length start loop
    simp [UF.initState]
    omega
  · have hd' : dry = false := by simpa using hd
    subst hd'
    have h4 := frameIndices_length start loop
    by_cases hm : UF.intTruthy multi = true
    · cases multi with
      | none => simp [UF.intTruthy] at hm
      | some n =>
        have hn : ¬n = 0 := by simpa [UF.intTruthy] using hm
        have h2 := counters_fold_batch env album n hn (UF.frameIndices start loop)
          UF.initState
        rw [show UF.initState.success_count = 0 from rfl,
          show UF.initState.fail_count = 0 from rfl] at h2
        simp [hm]
        omega
    · have h2 := counters_fold_single env album multi (by simpa using hm)
        (UF.frameIndices start loop) UF.initState
      rw [show UF.initState.success_count = 0 from rfl,
        show UF.initState.fail_count = 0 from rfl] at h2
      simp [hm]
      omega

lemma netCalls_sleeps (k : Nat) :
    netCalls (List.replicate k (Event.sleepFor 2)) = 0 := by
  induction k with
  | zero => rfl
  | succ m ih => simp [netCalls, List.replicate_succ, List.filter_cons] at ih ⊢

lemma removedPaths_sleeps (k : Nat) :
    removedPaths (List.replicate k (Event.sleepFor 2)) = [] := by
  induction k with
  | zero => rfl
  | succ m ih => simp [removedPaths, List.replicate_succ, List.filterMap_cons] at ih ⊢

/-- C9 counterexample: in a dry run over one missing frame the frame is
counted as a failure, not a success, so not every frame in the range is
counted as successful. -/
theorem spec_C9_cex :
    (UF.upload_frames envNoFiles 0 1 none true none).success_count = 0
  ∧ (UF.upload_frames envNoFiles 0 1 none true none).fail_count = 1 :=
  ⟨rfl, rfl⟩

/-- C9 (amended): with dry-run enabled no network call happens and no file is
deleted; every frame whose file exists is counted as successful, while
frames whose file is missing are still counted as failures. -/
theorem spec_C9_thm (env : Env) (album : Option String) (start loop : Int)
    (multi : Option Int) :
    netCalls (UF.upload_frames env start loop album true multi).events = 0
  ∧ removedPaths (UF.upload_frames env start loop album true multi).events = []
  ∧ (UF.upload_frames env start loop album true multi).success_count
      = ((UF.frameIndices start loop).filter (fun i => env.exists_frame i)).length
  ∧ (UF.upload_frames env start loop album true multi).fail_count
      = ((UF.frameIndices start loop).filter (fun i => !(env.exists_frame i))).length := by
  have hfold := dry_fold env album multi (UF.frameIndices start loop) UF.initState
  unfold UF.upload_frames
  dsimp only
  rw [hfold]
  simp [UF.initState, netCalls_sleeps, removedPaths_sleeps]

/-- A frame's file is deleted exactly when the frame exists, the run is not a
dry run, and the frame's upload succeeds (staging in batch mode, publishing
in single-publish mode). -/
def frameDeleted (env : Env) (album : Option String) (dry : Bool)
    (multi : Option Int) (i : Int) : Bool :=
  env.exists_frame i && !dry &&
    (if UF.intTruthy multi then (stageResult env album i).isSome
     else publishResult env album i)

/-- The files the orchestrator should delete over `l`, in order. -/
def deletedPathsSpec (env : Env) (album : Option String) (dry : Bool)
    (multi : Option Int) (l : List Int) : List String :=
  l.filterMap (fun i =>
    if frameDeleted env album dry multi i then some (UF.image_source i) else none)

lemma deletedPathsSpec_cons (env : Env) (album : Option String) (dry : Bool)
    (multi : Option Int) (i : Int) (l : List Int) :
    deletedPathsSpec env album dry multi (i :: l) =
      (if frameDeleted env album dry multi i then [UF.image_source i] else [])
        ++ deletedPathsSpec env album dry multi l := by
  simp only [deletedPathsSpec, List.filterMap_cons]
  split <;> simp_all

lemma removed_fold (env : Env) (album : Option String) (dry : Bool)
    (multi : Option Int) :
    ∀ (l : List Int) (s : UF.RunState),
      removedPaths ((l.foldl (UF.processFrame env album dry multi) s).events)
        = removedPaths s.events ++ deletedPathsSpec env album dry multi l := by
  intro l
  induction l with
  | nil => intro s; simp [deletedPathsSpec]
  | cons i l ih =>
    intro s
    simp only [List.foldl_cons]
    rw [deletedPathsSpec_cons]
    by_cases hex : env.exists_frame i = true
    · by_cases hd : dry = true
      · subst hd
        rw [pf_dry env album multi s i hex, ih]
        simp [removedPaths_append, frameDeleted, hex, removedPaths]
      · have hd' : dry = false := by simpa using hd
        subst hd'
        by_cases hm : UF.intTruthy multi = true
        · cases multi with
          | none => simp [UF.intTruthy] at hm
          | some n =>
            have hn : ¬n = 0 := by simpa [UF.intTruthy] using hm
            cases hid : stageResult env album i with
            | some ident =>
              rw [pf_batch_some env album n s i ident hex hn hid]
              by_cases hc : n ≤ ((s.media_fbids.length + 1 : Nat) : Int)
              · rw [if_pos hc, ih]
                simp only [removedPaths_append, removedPaths_stageEvents]
                simp [frameDeleted, hex, hid, hm, removedPaths]
              · rw [if_neg hc, ih]
                simp only [removedPaths_append, removedPaths_stageEvents]
                simp [frameDeleted, hex, hid, hm, removedPaths]
            | none =>
              rw [pf_batch_none env album n s i hex hn hid]
              by_cases hc : n ≤ (s.media_fbids.length : Int)
              · rw [if_pos hc, ih]
                simp only [removedPaths_append, removedPaths_stageEvents]
                simp [frameDeleted, hex, hid, hm, removedPaths]
              · rw [if_neg hc, ih]
                simp only [removedPaths_append, removedPaths_stageEvents]
                simp [frameDeleted, hex, hid, hm, removedPaths]
        · have hm' : UF.intTruthy multi = false := by simpa using hm
          rw [pf_single env album multi s i hex hm']
          by_cases hp : publishResult env album i
          · rw [if_pos hp, ih]
            simp only [removedPaths_append, removedPaths_publishEvents]
            simp [frameDeleted, hex, hp, hm', removedPaths]
          · rw [if_neg hp, ih]
            simp only [removedPaths_append, removedPaths_publishEvents]
            simp [frameDeleted, hex, hp, hm', removedPaths]
    · rw [pf_missing env album dry multi s i (by simpa using hex), ih]
      simp [removedPaths_append, frameDeleted, hex, removedPaths]

lemma mainpy_pf_missing (env : Env) (album : Option String) (dry : Bool)
    (multi : Option Int) (s : MainPy.St) (i : Int)
    (h : env.exists_frame i = false) :
    MainPy.processFrame env album dry multi s i =
      ⟨s.media_fbids, s.events ++ [Event.sleepFor 4]⟩ := by
  simp [MainPy.processFrame, h]

lemma mainpy_pf_single (env : Env) (album : Option String) (multi : Option Int)
    (s : MainPy.St) (i : Int) (h : env.exists_frame i = true)
    (hm : UF.intTruthy multi = false) :
    MainPy.processFrame env album false multi s i =
      if is200 (env.net i 0) then
        ⟨s.media_fbids,
          s.events ++ [Event.sleepFor 4]
            ++ [Event.photoPost true (MainPy.image_source i)]
            ++ [Event.removeFile (MainPy.image_source i)]⟩
      else
        ⟨s.media_fbids,
          s.events ++ [Event.sleepFor 4]
            ++ [Event.photoPost true (MainPy.image_source i)]⟩ := by
  by_cases hp : is200 (env.net i 0)
  · simp [MainPy.processFrame, h, hm, hp, MainPy.upload_single_photo_published]
  · simp [MainPy.processFrame, h, hm, hp, MainPy.upload_single_photo_published,
      Bool.eq_false_iff.mpr hp]

/-- Legacy single-publish fold: every present frame gets exactly one photo
POST regardless of the outcomes of earlier frames, and a frame's file is
removed exactly when its single publish attempt returns status 200. -/
lemma mainpy_single_fold (env : Env) (album : Option String) (multi : Option Int)
    (hm : UF.intTruthy multi = false) :
    ∀ (l : List Int) (s : MainPy.St),
      (photoPosts ((l.foldl (MainPy.processFrame env album false multi) s).events)).length
        = (photoPosts s.events).length + (l.filter (fun i => env.exists_frame i)).length
    ∧ removedPaths ((l.foldl (MainPy.processFrame env album false multi) s).events)
        = removedPaths s.events ++ l.filterMap (fun i =>
            if env.exists_frame i && is200 (env.net i 0)
            then some (MainPy.image_source i) else none)
    ∧ (l.foldl (MainPy.processFrame env album false multi) s).media_fbids
        = s.media_fbids := by
  intro l
  induction l with
  | nil => intro s; simp
  | cons i l ih =>
    intro s
    simp only [List.foldl_cons, List.filter_cons, List.filterMap_cons]
    by_cases hex : env.exists_frame i = true
    · rw [mainpy_pf_single env album multi s i hex hm]
      by_cases hp : is200 (env.net i 0)
      · rw [if_pos hp]
        obtain ⟨ih1, ih2, ih3⟩ := ih ⟨s.media_fbids,
          s.events ++ [Event.sleepFor 4]
            ++ [Event.photoPost true (MainPy.image_source i)]
            ++ [Event.removeFile (MainPy.image_source i)]⟩
        refine ⟨?_, ?_, ?_⟩
        · rw [ih1]; simp [photoPosts_append, photoPosts, hex]; omega
        · rw [ih2]; simp [removedPaths_append, removedPaths, hex, hp]
        · exact ih3
      · rw [if_neg hp]
        obtain ⟨ih1, ih2, ih3⟩ := ih ⟨s.media_fbids,
          s.events ++ [Event.sleepFor 4]
            ++ [Event.photoPost true (MainPy.image_source i)]⟩
        refine ⟨?_, ?_, ?_⟩
        · rw [ih1]; simp [photoPosts_append, photoPosts, hex]; omega
        · rw [ih2]; simp [removedPaths_append, removedPaths, hex, hp]
        · exact ih3
    · rw [mainpy_pf_missing env album false multi s i (by simpa using hex)]
      obtain ⟨ih1, ih2, ih3⟩ := ih ⟨s.media_fbids, s.events ++ [Event.sleepFor 4]⟩
      refine ⟨?_, ?_, ?_⟩
      · rw [ih1]; simp [photoPosts_append, photoPosts, hex]
      · rw [ih2]; simp [removedPaths_append, removedPaths, hex]
      · exact ih3

lemma mainpy_upload_frames_single (env : Env) (start loop : Int)
    (album : Option String) (multi : Option Int) (hm : UF.intTruthy multi = false) :
    MainPy.upload_frames env start loop album false multi
      = (UF.frameIndices start loop).foldl
          (MainPy.processFrame env album false multi) ⟨[], []⟩ := by
  unfold MainPy.upload_frames
  dsimp only
  simp [hm]

/-- C8: in every mode of upload_frames.py, the removed files are exactly the
frames that exist, are not in a dry run, and whose upload succeeds (publish
success in single-publish mode, staging success in batch mode) — never a
failed frame; and in the legacy main.py single-publish variant the removed
files are exactly the present frames whose single publish attempt returns
status 200. -/
theorem spec_C8_thm (env : Env) (album : Option String) (start loop : Int)
    (dry : Bool) (multi : Option Int) :
    removedPaths (UF.upload_frames env start loop album dry multi).events
      = deletedPathsSpec env album dry multi (UF.frameIndices start loop)
  ∧ removedPaths (MainPy.upload_frames env start loop album false none).events
      = (UF.frameIndices start loop).filterMap (fun i =>
          if env.exists_frame i && is200 (env.net i 0)
          then some (MainPy.image_source i) else none) := by
  constructor
  · have hfold := removed_fold env album dry multi (UF.frameIndices start loop)
      UF.initState
    unfold UF.upload_frames
    dsimp only
    split
    · rw [removedPaths_append, hfold]
      simp [UF.initState, UF.upload_multiple_photos, removedPaths]
    · rw [hfold]
      simp [UF.initState, removedPaths]
  · rw [mainpy_upload_frames_single env start loop album none rfl]
    have h := (mainpy_single_fold env album none rfl (UF.frameIndices start loop)
      ⟨[], []⟩).2.1
    rw [h]
    simp [removedPaths]

/-- C4 counterexample: in the legacy single-publish variant, with both frames
present and every publish attempt failing with a transport error, frame 0
fails and frame 1 is still attempted — the run is not halted. -/
theorem spec_C4_cex :
    photoPosts (MainPy.upload_frames envAllFailNet 0 2 none false none).events
      = [(true, "./frame/frame_0000.jpg"), (true, "./frame/frame_0001.jpg")] := by
  rfl

/-- C4 (amended): the pure single-publish legacy variant does not halt on a
per-frame failure either: every frame of the range whose file exists receives
a publish attempt, regardless of the outcomes of earlier frames; a failed
frame merely keeps its file. -/
theorem spec_C4_thm (env : Env) (album : Option String) (start loop : Int) :
    (photoPosts (MainPy.upload_frames env start loop album false none).events).length
      = ((UF.frameIndices start loop).filter (fun i => env.exists_frame i)).length := by
  rw [mainpy_upload_frames_single env start loop album none rfl]
  have h := (mainpy_single_fold env album none rfl (UF.frameIndices start loop)
    ⟨[], []⟩).1
  rw [h]
  simp [photoPosts]

lemma multi_photo_invalid_iff (v : Int) :
    UF.multi_photo_invalid (some v) = true ↔ (v ≠ 0 ∧ (v < 1 ∨ 4 < v)) := by
  simp [UF.multi_photo_invalid, MAX_PHOTOS_PER_POST]

/-- C2 counterexample: `--multi-photo 0` is outside [1,4], yet Python's
truthiness test lets it through: `main` exits 0 and the upload loop runs. -/
theorem spec_C2_cex :
    (UF.mainResult envNoFiles ⟨0, 0, none, false, some 0⟩).1 = 0
  ∧ (UF.mainResult envNoFiles ⟨0, 0, none, false, some 0⟩).2 ≠ none
  ∧ ¬(1 ≤ (0 : Int) ∧ (0 : Int) ≤ 4) := by
  refine ⟨rfl, by simp [UF.mainResult, UF.multi_photo_invalid], by decide⟩

/-- C2 (amended): the program exits 1 before the upload loop exactly when the
`--multi-photo` value is present, nonzero, and outside [1,4]; the value 0,
although outside [1,4], is falsy and treated like an omitted flag, so the run
proceeds (in single-publish mode) and exits 0, as do in-range values and the
omitted flag. -/
theorem spec_C2_thm (env : Env) (args : UF.Args) :
    ((UF.mainResult env args).1 = 1 ↔
        ∃ v, args.multi_photo = some v ∧ v ≠ 0 ∧ (v < 1 ∨ 4 < v))
  ∧ ((UF.mainResult env args).2 = none ↔ (UF.mainResult env args).1 = 1)
  ∧ ((UF.mainResult env args).1 = 0 ∨ (UF.mainResult env args).1 = 1) := by
  by_cases hinv : UF.multi_photo_invalid args.multi_photo = true
  · have h2 : UF.mainResult env args = (1, none) := by
      simp [UF.mainResult, hinv]
    rw [h2]
    cases hmp : args.multi_photo with
    | none => rw [hmp] at hinv; simp [UF.multi_photo_invalid] at hinv
    | some v =>
      rw [hmp] at hinv
      rw [multi_photo_invalid_iff] at hinv
      refine ⟨?_, by simp, Or.inr rfl⟩
      constructor
      · intro hof
        exact ⟨v, rfl, hinv.1, hinv.2⟩
      · intro hof
        rfl
  · have hinv' : UF.multi_photo_invalid args.multi_photo = false := by
      simpa using hinv
    have h2 : UF.mainResult env args
        = (0, some (UF.upload_frames env args.start args.loop args.album
            args.dry_run args.multi_photo)) := by
      simp [UF.mainResult, hinv']
    rw [h2]
    refine ⟨?_, ?_, Or.inl rfl⟩
    · constructor
      · intro h; simp at h
      · rintro ⟨v, hv, hcond⟩
        rw [hv] at hinv'
        rw [show (UF.multi_photo_invalid (some v) = false)
              = ¬(UF.multi_photo_invalid (some v) = true) by simp] at hinv'
        exact absurd ((multi_photo_invalid_iff v).mpr hcond) hinv'
    · constructor
      · intro h; simp at h
      · intro h; simp at h

/-- Under a response oracle that always returns 200 with a missing `id`
field, upload_frames.py's stage loop retries after every attempt: `fuel`
attempts happen, each followed by the backoff sleep, and the result is
`None`. -/
lemma stageAttempt_malformed (p : String) :
    ∀ fuel attempt,
      UF.stageAttempt (fun _ => NetResult.resp 200 none) p attempt fuel
        = (none, (List.replicate fuel
            [Event.photoPost false p, Event.sleepFor 2]).flatten) := by
  intro fuel
  induction fuel with
  | zero => intro attempt; rfl
  | succ f ih =>
    intro attempt
    simp [UF.stageAttempt, is200, respId, ih, List.replicate_succ]

/-- C3 counterexample: with every response being 200-without-id, the staging
helper of upload_frames.py makes 3 photo POSTs for the frame, not 1 — the
malformed response is retried, not failed immediately. -/
theorem spec_C3_cex :
    (photoPosts (UF.upload_single_photo_unpublished
        (fun _ => NetResult.resp 200 none) "p" "c" none UF.defaultRetries).2).length = 3
  ∧ (UF.upload_single_photo_unpublished
        (fun _ => NetResult.resp 200 none) "p" "c" none UF.defaultRetries).1 = none := by
  exact ⟨rfl, rfl⟩

/-- C3 (amended): a 200 response whose body lacks the `id` field makes the
attempt fail; in upload_frames.py it is retried like any other failed
attempt, up to the retry bound, after which the frame fails; only in the
legacy single-attempt variant (main.py) is the malformed response an
immediate failure with no retry (that helper never retries anything). -/
theorem spec_C3_thm (p c : String) (album : Option String) (retries : Nat) :
    UF.upload_single_photo_unpublished (fun _ => NetResult.resp 200 none)
        p c album retries
      = (none, (List.replicate retries
          [Event.photoPost false p, Event.sleepFor 2]).flatten)
  ∧ MainPy.upload_single_photo_unpublished (NetResult.resp 200 none) p c album
      = (none, [Event.photoPost false p]) :=
  ⟨stageAttempt_malformed p retries 0, rfl⟩

lemma publishAttempt_allFail (oracle : Nat → NetResult) (p : String)
    (h : ∀ a, is200 (oracle a) = false) :
    ∀ fuel attempt,
      UF.publishAttempt oracle p attempt fuel
        = (false, (List.replicate fuel
            [Event.photoPost true p, Event.sleepFor 2]).flatten) := by
  intro fuel
  induction fuel with
  | zero => intro attempt; rfl
  | succ f ih =>
    intro attempt
    simp [UF.publishAttempt, h attempt, ih, List.replicate_succ]

lemma stageAttempt_allFail (oracle : Nat → NetResult) (p : String)
    (h : ∀ a, is200 (oracle a) = false) :
    ∀ fuel attempt,
      UF.stageAttempt oracle p attempt fuel
        = (none, (List.replicate fuel
            [Event.photoPost false p, Event.sleepFor 2]).flatten) := by
  intro fuel
  induction fuel with
  | zero => intro attempt; rfl
  | succ f ih =>
    intro attempt
    simp [UF.stageAttempt, h attempt, ih, List.replicate_succ]

/-- C5: under an always-transient oracle both retrying helpers make exactly
`retries` attempts (default 3) with the fixed backoff sleep of 2 between
consecutive attempts, then report failure; in single-publish mode such a
frame is recorded as a failure (`fail_count + 1`) after exactly that trace;
and each frame index occurs at most once in the run's range, so the frame is
never attempted again within the run. -/
theorem spec_C5_thm (oracle : Nat → NetResult) (p c : String)
    (album : Option String) (retries : Nat) (h : ∀ a, is200 (oracle a) = false) :
    UF.upload_single_photo_published oracle p c album retries
      = (false, (List.replicate retries
          [Event.photoPost true p, Event.sleepFor 2]).flatten)
  ∧ UF.upload_single_photo_unpublished oracle p c album retries
      = (none, (List.replicate retries
          [Event.photoPost false p, Event.sleepFor 2]).flatten)
  ∧ UF.defaultRetries = 3
  ∧ (∀ (env : Env) (album2 : Option String) (s : UF.RunState) (i : Int),
      env.net i = oracle → env.exists_frame i = true →
      UF.processFrame env album2 false none s i =
        ⟨s.media_fbids, s.success_count, s.fail_count + 1,
          s.events ++ [Event.sleepFor 2]
            ++ (List.replicate UF.defaultRetries
                [Event.photoPost true (UF.image_source i), Event.sleepFor 2]).flatten⟩)
  ∧ (∀ (start loop i : Int), (UF.frameIndices start loop).count i ≤ 1) := by
  refine ⟨publishAttempt_allFail oracle p h retries 0,
    stageAttempt_allFail oracle p h retries 0, rfl, ?_, ?_⟩
  · intro env album2 s i hnet hex
    have hp : publishResult env album2 i = false := by
      unfold publishResult UF.upload_single_photo_published
      rw [hnet, publishAttempt_allFail oracle (UF.image_source i) h
        UF.defaultRetries 0]
    have hev : publishEvents env album2 i
        = (List.replicate UF.defaultRetries
            [Event.photoPost true (UF.image_source i), Event.sleepFor 2]).flatten := by
      unfold publishEvents UF.upload_single_photo_published
      rw [hnet, publishAttempt_allFail oracle (UF.image_source i) h
        UF.defaultRetries 0]
    rw [pf_single env album2 none s i hex rfl, if_neg (by rw [hp]; exact fun hc => by cases hc),
      hev]
  · intro start loop i
    have hnd : (UF.frameIndices start loop).Nodup := by
      unfold UF.frameIndices
      exact (List.nodup_range _).map (fun a b hab => by omega)
    exact List.nodup_iff_count_le_one.mp hnd i

/-- Witness for C5 at a concrete always-transport oracle. -/
theorem spec_C5_thm_witness :
    UF.upload_single_photo_published (fun _ => NetResult.transport) "a" "b" none 3
      = (false, (List.replicate 3 [Event.photoPost true "a", Event.sleepFor 2]).flatten)
  ∧ UF.defaultRetries = 3 :=
  ⟨(spec_C5_thm (fun _ => NetResult.transport) "a" "b" none 3 (fun a => rfl)).1,
   (spec_C5_thm (fun _ => NetResult.transport) "a" "b" none 3 (fun a => rfl)).2.2.1⟩

lemma stagedIds_cons_some (env : Env) (album : Option String) (i : Int)
    (l : List Int) (ident : String) (hex : env.exists_frame i = true)
    (hid : stageResult env album i = some ident) :
    stagedIds env album (i :: l) = ident :: stagedIds env album l := by
  simp [stagedIds, List.filterMap_cons, hex, hid]

lemma stagedIds_cons_none (env : Env) (album : Option String) (i : Int)
    (l : List Int) (hex : env.exists_frame i = true)
    (hid : stageResult env album i = none) :
    stagedIds env album (i :: l) = stagedIds env album l := by
  simp [stagedIds, List.filterMap_cons, hex, hid]

lemma stagedIds_cons_missing (env : Env) (album : Option String) (i : Int)
    (l : List Int) (hex : env.exists_frame i = false) :
    stagedIds env album (i :: l) = stagedIds env album l := by
  simp [stagedIds, List.filterMap_cons, hex]

/-- Batch-mode fold invariant: with batch size `n` in [1,4] and a buffer
shorter than `n`, the flush calls added by the loop are exactly the
successive full chunks of `n` staged handles, in order, and the final buffer
carries the remainder. -/
lemma batch_fold (env : Env) (album : Option String) (n : Nat)
    (h1 : 1 ≤ n) (h4 : n ≤ 4) :
    ∀ (l : List Int) (s : UF.RunState), s.media_fbids.length < n →
      ∃ X : List (List String),
        flushCalls ((l.foldl (UF.processFrame env album false (some (n : Int))) s).events)
          = flushCalls s.events ++ X
        ∧ X.flatten
            ++ (l.foldl (UF.processFrame env album false (some (n : Int))) s).media_fbids
          = s.media_fbids ++ stagedIds env album l
        ∧ (∀ c ∈ X, c.length = n)
        ∧ (l.foldl (UF.processFrame env album false (some (n : Int))) s).media_fbids.length
            < n := by
  have hn0 : ¬(n : Int) = 0 := by
    intro hc
    have : n = 0 := by exact_mod_cast hc
    omega
  intro l
  induction l with
  | nil =>
    intro s hs
    exact ⟨[], by simp, by simp [stagedIds], by simp, hs⟩
  | cons i l ih =>
    intro s hs
    simp only [List.foldl_cons]
    by_cases hex : env.exists_frame i = true
    · cases hid : stageResult env album i with
      | some ident =>
        rw [pf_batch_some env album (n : Int) s i ident hex hn0 hid,
          stagedIds_cons_some env album i l ident hex hid]
        by_cases hc : (n : Int) ≤ ((s.media_fbids.length + 1 : Nat) : Int)
        · rw [if_pos hc]
          have hcn : s.media_fbids.length + 1 = n := by
            have : (n : Int) ≤ (s.media_fbids.length + 1 : Nat) := hc
            have h2 : n ≤ s.media_fbids.length + 1 := by exact_mod_cast this
            omega
          have hlen : (s.media_fbids ++ [ident]).length = n := by
            simp; omega
          have htake : (s.media_fbids ++ [ident]).take MAX_PHOTOS_PER_POST
              = s.media_fbids ++ [ident] := by
            apply List.take_of_length_le
            rw [hlen]
            exact le_trans h4 (by norm_num [MAX_PHOTOS_PER_POST])
          obtain ⟨X, hX1, hX2, hX3, hX4⟩ := ih ⟨[], s.success_count + 1, s.fail_count,
            s.events ++ [Event.sleepFor 2] ++ stageEvents env album i
              ++ [Event.removeFile (UF.image_source i)]
              ++ [Event.feedPost ((s.media_fbids ++ [ident]).take MAX_PHOTOS_PER_POST)
                    (env.flushNet ((s.media_fbids ++ [ident]).take MAX_PHOTOS_PER_POST))]⟩
            (by simpa using h1)
          refine ⟨(s.media_fbids ++ [ident]) :: X, ?_, ?_, ?_, hX4⟩
          · rw [hX1]
            simp only [flushCalls_append, flushCalls_stageEvents, htake]
            simp [flushCalls]
          · rw [List.flatten_cons, List.append_assoc, hX2]
            simp
          · intro c hcm
            rcases List.mem_cons.mp hcm with hcm | hcm
            · rw [hcm]; exact hlen
            · exact hX3 c hcm
        · rw [if_neg hc]
          have hlt : (s.media_fbids ++ [ident]).length < n := by
            have : ¬n ≤ s.media_fbids.length + 1 := by
              intro h2
              exact hc (by exact_mod_cast h2)
            simp
            omega
          obtain ⟨X, hX1, hX2, hX3, hX4⟩ := ih ⟨s.media_fbids ++ [ident],
            s.success_count + 1, s.fail_count,
            s.events ++ [Event.sleepFor 2] ++ stageEvents env album i
              ++ [Event.removeFile (UF.image_source i)]⟩ hlt
          refine ⟨X, ?_, ?_, hX3, hX4⟩
          · rw [hX1]
            simp only [flushCalls_append, flushCalls_stageEvents]
            simp [flushCalls]
          · rw [hX2]
            simp
      | none =>
        rw [pf_batch_none env album (n : Int) s i hex hn0 hid,
          stagedIds_cons_none env album i l hex hid]
        have hc : ¬(n : Int) ≤ (s.media_fbids.length : Int) := by
          intro h2
          have : n ≤ s.media_fbids.length := by exact_mod_cast h2
          omega
        rw [if_neg hc]
        obtain ⟨X, hX1, hX2, hX3, hX4⟩ := ih ⟨s.media_fbids,
          s.success_count, s.fail_count,
          s.events ++ [Event.sleepFor 2] ++ stageEvents env album i⟩ hs
        refine ⟨X, ?_, hX2, hX3, hX4⟩
        rw [hX1]
        simp only [flushCalls_append, flushCalls_stageEvents]
        simp [flushCalls]
    · rw [pf_missing env album false (some (n : Int)) s i (by simpa using hex),
        stagedIds_cons_missing env album i l (by simpa using hex)]
      obtain ⟨X, hX1, hX2, hX3, hX4⟩ := ih ⟨s.media_fbids,
        s.success_count, s.fail_count + 1, s.events ++ [Event.sleepFor 2]⟩ hs
      refine ⟨X, ?_, hX2, hX3, hX4⟩
      rw [hX1]
      simp [flushCalls_append, flushCalls]

lemma flatten_const_length (n : Nat) :
    ∀ X : List (List String), (∀ c ∈ X, c.length = n) →
      X.flatten.length = X.length * n := by
  intro X
  induction X with
  | nil => intro h; simp
  | cons c X ih =>
    intro h
    simp only [List.flatten_cons, List.length_append, List.length_cons]
    rw [ih (fun d hd => h d (List.mem_cons_of_mem c hd)), h c (List.mem_cons_self c X)]
    ring

/-- The flush calls of a batch run decompose into the full chunks of size `n`
followed by the end-of-run remainder flush (absent when the buffer ended
empty). -/
lemma batch_run_decomp (env : Env) (album : Option String) (start loop : Int)
    (n : Nat) (h1 : 1 ≤ n) (h4 : n ≤ 4) :
    ∃ (X : List (List String)) (b : List String),
      flushCalls (UF.upload_frames env start loop album false (some (n : Int))).events
        = X ++ (if b = ([] : List String) then [] else [b])
      ∧ X.flatten ++ b = stagedIds env album (UF.frameIndices start loop)
      ∧ (∀ c ∈ X, c.length = n)
      ∧ b.length < n := by
  obtain ⟨X, hX1, hX2, hX3, hX4⟩ := batch_fold env album n h1 h4
    (UF.frameIndices start loop) UF.initState (by simp [UF.initState]; omega)
  refine ⟨X, (List.foldl (UF.processFrame env album false (some (n : Int)))
    UF.initState (UF.frameIndices start loop)).media_fbids, ?_, hX2, hX3, hX4⟩
  unfold UF.upload_frames
  dsimp only
  have htru : UF.intTruthy (some (n : Int)) = true := by
    simp [UF.intTruthy]
    intro hc
    have : n = 0 := by exact_mod_cast hc
    omega
  by_cases hbe : (List.foldl (UF.processFrame env album false (some (n : Int)))
      UF.initState (UF.frameIndices start loop)).media_fbids = []
  · rw [if_neg (by simp [htru, hbe])]
    rw [hX1, if_pos hbe]
    simp [UF.initState, flushCalls]
  · rw [if_pos (by simp [htru, hbe])]
    rw [if_neg hbe]
    simp only [UF.upload_multiple_photos, flushCalls_append, hX1]
    have htake : (List.foldl (UF.processFrame env album false (some (n : Int)))
          UF.initState (UF.frameIndices start loop)).media_fbids.take
          MAX_PHOTOS_PER_POST
        = (List.foldl (UF.processFrame env album false (some (n : Int)))
          UF.initState (UF.frameIndices start loop)).media_fbids := by
      apply List.take_of_length_le
      have := hX4
      have h44 : n ≤ MAX_PHOTOS_PER_POST := by norm_num [MAX_PHOTOS_PER_POST, h4]
      omega
    rw [htake]
    simp [UF.initState, flushCalls]

/-- C7: with batch size `n` in [1,4], the concatenation of all `flush_batch`
payloads is exactly the list of staged handles in order — every offered
handle appears in exactly one flush call, none twice, none dropped, and the
buffer is cleared on every flush regardless of the flush outcome — and no
flush call carries more than `n` handles. -/
theorem spec_C7_thm (env : Env) (album : Option String) (start loop : Int)
    (n : Nat) (h1 : 1 ≤ n) (h4 : n ≤ 4) :
    (flushCalls (UF.upload_frames env start loop album false
        (some (n : Int))).events).flatten
      = stagedIds env album (UF.frameIndices start loop)
  ∧ ∀ c ∈ flushCalls (UF.upload_frames env start loop album false
      (some (n : Int))).events, c.length ≤ n := by
  obtain ⟨X, b, hF, hJ, hX, hb⟩ := batch_run_decomp env album start loop n h1 h4
  constructor
  · rw [hF]
    by_cases hbe : b = []
    · subst hbe
      simpa using hJ
    · rw [if_neg hbe]
      rw [List.flatten_append]
      simpa using hJ
  · intro c hc
    rw [hF] at hc
    rcases List.mem_append.mp hc with hc | hc
    · exact le_of_eq (hX c hc)
    · by_cases hbe : b = []
      · rw [if_pos hbe] at hc
        simp at hc
      · rw [if_neg hbe] at hc
        simp at hc
        subst hc
        omega

/-- Witness for C7 at a concrete batch run: size 2 over 5 staged frames. -/
theorem spec_C7_thm_witness :
    (flushCalls (UF.upload_frames envAllOk 10 5 none false
        (some ((2 : Nat) : Int))).events).flatten
      = stagedIds envAllOk none (UF.frameIndices 10 5)
  ∧ ∀ c ∈ flushCalls (UF.upload_frames envAllOk 10 5 none false
      (some ((2 : Nat) : Int))).events, c.length ≤ 2 :=
  spec_C7_thm envAllOk none 10 5 2 (by decide) (by decide)

/-- C6: with batch size `n` in [1,4] and `M` successfully staged frames, a
batch run makes exactly `⌈M / n⌉` flush calls, and the last call carries
`M mod n` handles (`n` when `n` divides `M`). -/
theorem spec_C6_thm (env : Env) (album : Option String) (start loop : Int)
    (n : Nat) (h1 : 1 ≤ n) (h4 : n ≤ 4) :
    (flushCalls (UF.upload_frames env start loop album false
        (some (n : Int))).events).length
      = ((stagedIds env album (UF.frameIndices start loop)).length + n - 1) / n
  ∧ (0 < (stagedIds env album (UF.frameIndices start loop)).length →
      ∃ c, (flushCalls (UF.upload_frames env start loop album false
          (some (n : Int))).events).getLast? = some c
        ∧ c.length = (if (stagedIds env album (UF.frameIndices start loop)).length % n = 0
            then n
            else (stagedIds env album (UF.frameIndices start loop)).length % n)) := by
  obtain ⟨X, b, hF, hJ, hX, hb⟩ := batch_run_decomp env album start loop n h1 h4
  have hXlen : X.flatten.length = X.length * n := flatten_const_length n X hX
  have hM : (stagedIds env album (UF.frameIndices start loop)).length
      = X.length * n + b.length := by
    rw [← hJ, List.length_append, hXlen]
  by_cases hbe : b = []
  · subst hbe
    rw [if_pos rfl] at hF
    simp only [List.length_nil, Nat.add_zero] at hM
    constructor
    · rw [hF]
      simp only [List.append_nil]
      rw [hM]
      interval_cases n <;> omega
    · intro hpos
      rw [hM] at hpos
      have hXne : X ≠ [] := by
        intro hc
        subst hc
        simp at hpos
      refine ⟨X.getLast hXne, ?_, ?_⟩
      · rw [hF]
        simp only [List.append_nil]
        exact List.getLast?_eq_getLast X hXne
      · rw [hX (X.getLast hXne) (List.getLast_mem hXne)]
        rw [hM]
        have : X.length * n % n = 0 := by
          interval_cases n <;> omega
        rw [if_pos this]
  · rw [if_neg hbe] at hF
    have hbpos : 0 < b.length := List.length_pos.mpr hbe
    constructor
    · rw [hF]
      rw [List.length_append, hM]
      simp only [List.length_cons, List.length_nil]
      interval_cases n <;> omega
    · intro hpos
      refine ⟨b, ?_, ?_⟩
      · rw [hF]
        exact List.getLast?_concat X
      · rw [hM]
        have hmod : (X.length * n + b.length) % n = b.length := by
          interval_cases n <;> omega
        rw [hmod, if_neg (by omega)]

/-- Witness for C6: batch size 2 over 5 staged frames gives 3 flush calls. -/
theorem spec_C6_thm_witness :
    (flushCalls (UF.upload_frames envAllOk 10 5 none false
        (some ((2 : Nat) : Int))).events).length
      = ((stagedIds envAllOk none (UF.frameIndices 10 5)).length + 2 - 1) / 2
  ∧ (flushCalls (UF.upload_frames envAllOk 10 5 none false
      (some ((2 : Nat) : Int))).events).length = 3 :=
  ⟨(spec_C6_thm envAllOk none 10 5 2 (by decide) (by decide)).1, by rfl⟩

/-- Forget the response recorded on a feed POST (the code never reads it). -/
def stripFlush : Event → Event
  | .feedPost hs _ => .feedPost hs NetResult.transport
  | e => e

lemma removedPaths_map_strip (evs : List Event) :
    removedPaths (evs.map stripFlush) = removedPaths evs := by
  unfold removedPaths
  rw [List.filterMap_map]
  congr 1
  funext e
  cases e <;> rfl

lemma flushCalls_map_strip (evs : List Event) :
    flushCalls (evs.map stripFlush) = flushCalls evs := by
  unfold flushCalls
  rw [List.filterMap_map]
  congr 1
  funext e
  cases e <;> rfl

lemma stageResult_flushNet (env : Env) (g : List String → NetResult)
    (album : Option String) (i : Int) :
    stageResult { env with flushNet := g } album i = stageResult env album i := rfl

lemma stageEvents_flushNet (env : Env) (g : List String → NetResult)
    (album : Option String) (i : Int) :
    stageEvents { env with flushNet := g } album i = stageEvents env album i := rfl

lemma publishResult_flushNet (env : Env) (g : List String → NetResult)
    (album : Option String) (i : Int) :
    publishResult { env with flushNet := g } album i = publishResult env album i := rfl

lemma publishEvents_flushNet (env : Env) (g : List String → NetResult)
    (album : Option String) (i : Int) :
    publishEvents { env with flushNet := g } album i = publishEvents env album i := rfl

/-- Changing the feed-endpoint responses changes nothing the loop keeps:
buffer, counters, and the trace up to feed-POST responses all coincide. -/
lemma c10_fold (env : Env) (g : List String → NetResult) (album : Option String)
    (dry : Bool) (multi : Option Int) :
    ∀ (l : List Int) (s t : UF.RunState),
      s.media_fbids = t.media_fbids → s.success_count = t.success_count →
      s.fail_count = t.fail_count →
      s.events.map stripFlush = t.events.map stripFlush →
      (l.foldl (UF.processFrame env album dry multi) s).media_fbids
        = (l.foldl (UF.processFrame { env with flushNet := g } album dry multi) t).media_fbids
      ∧ (l.foldl (UF.processFrame env album dry multi) s).success_count
        = (l.foldl (UF.processFrame { env with flushNet := g } album dry multi) t).success_count
      ∧ (l.foldl (UF.processFrame env album dry multi) s).fail_count
        = (l.foldl (UF.processFrame { env with flushNet := g } album dry multi) t).fail_count
      ∧ (l.foldl (UF.processFrame env album dry multi) s).events.map stripFlush
        = (l.foldl (UF.processFrame { env with flushNet := g } album dry multi) t).events.map
            stripFlush := by
  intro l
  induction l with
  | nil => intro s t h1 h2 h3 h4; exact ⟨h1, h2, h3, h4⟩
  | cons i l ih =>
    intro s t hbuf hsc hfc hev
    simp only [List.foldl_cons]
    by_cases hex : env.exists_frame i = true
    · by_cases hd : dry = true
      · subst hd
        rw [pf_dry env album multi s i hex,
          pf_dry { env with flushNet := g } album multi t i hex]
        exact ih _ _ hbuf (by simp [hsc]) hfc (by simp [hev])
      · have hd' : dry = false := by simpa using hd
        subst hd'
        by_cases hm : UF.intTruthy multi = true
        · cases multi with
          | none => simp [UF.intTruthy] at hm
          | some n =>
            have hn : ¬n = 0 := by simpa [UF.intTruthy] using hm
            cases hid : stageResult env album i with
            | some ident =>
              rw [pf_batch_some env album n s i ident hex hn hid,
                pf_batch_some { env with flushNet := g } album n t i ident hex hn hid]
              rw [← hbuf]
              by_cases hc : n ≤ ((s.media_fbids.length + 1 : Nat) : Int)
              · rw [if_pos hc, if_pos hc]
                refine ih _ _ rfl (by simp [hsc]) hfc ?_
                simp [hev, stageEvents_flushNet, stripFlush]
              · rw [if_neg hc, if_neg hc]
                refine ih _ _ (by rw [hbuf]) (by simp [hsc]) hfc ?_
                simp [hev, stageEvents_flushNet]
            | none =>
              rw [pf_batch_none env album n s i hex hn hid,
                pf_batch_none { env with flushNet := g } album n t i hex hn hid]
              rw [← hbuf]
              by_cases hc : n ≤ (s.media_fbids.length : Int)
              · rw [if_pos hc, if_pos hc]
                refine ih _ _ rfl hsc hfc ?_
                simp [hev, stageEvents_flushNet, stripFlush]
              · rw [if_neg hc, if_neg hc]
                refine ih _ _ (by rw [hbuf]) hsc hfc ?_
                simp [hev, stageEvents_flushNet]
        · have hm' : UF.intTruthy multi = false := by simpa using hm
          rw [pf_single env album multi s i hex hm',
            pf_single { env with flushNet := g } album multi t i hex hm']
          have hpr : publishResult { env with flushNet := g } album i
              = publishResult env album i := rfl
          have hpe : publishEvents { env with flushNet := g } album i
              = publishEvents env album i := rfl
          by_cases hp : publishResult env album i
          · rw [if_pos hp, if_pos (show publishResult { env with flushNet := g } album i
              = true by rw [hpr]; exact hp)]
            exact ih _ _ hbuf (by simp [hsc]) hfc (by simp [hev, hpe])
          · rw [if_neg hp, if_neg (show ¬publishResult { env with flushNet := g } album i
              = true by rw [hpr]; exact hp)]
            exact ih _ _ hbuf hsc (by simp [hfc]) (by simp [hev, hpe])
    · rw [pf_missing env album dry multi s i (by simpa using hex),
        pf_missing { env with flushNet := g } album dry multi t i (by simpa using hex)]
      exact ih _ _ hbuf hsc (by simp [hfc]) (by simp [hev])

/-- C10: in batch mode the counters are bumped and the file deleted when the
frame stages, before any flush; the feed-endpoint outcome is never read, so
replacing every flush response (e.g. making every multi-photo post fail)
leaves success_count, fail_count, the set of deleted files, the flush
payloads, and the buffer exactly as a run whose flushes all succeed. -/
theorem spec_C10_thm (env : Env) (g : List String → NetResult)
    (album : Option String) (start loop : Int) (dry : Bool) (multi : Option Int) :
    (UF.upload_frames env start loop album dry multi).success_count
      = (UF.upload_frames { env with flushNet := g } start loop album dry
          multi).success_count
  ∧ (UF.upload_frames env start loop album dry multi).fail_count
      = (UF.upload_frames { env with flushNet := g } start loop album dry
          multi).fail_count
  ∧ removedPaths (UF.upload_frames env start loop album dry multi).events
      = removedPaths (UF.upload_frames { env with flushNet := g } start loop album
          dry multi).events
  ∧ flushCalls (UF.upload_frames env start loop album dry multi).events
      = flushCalls (UF.upload_frames { env with flushNet := g } start loop album
          dry multi).events
  ∧ (UF.upload_frames env start loop album dry multi).media_fbids
      = (UF.upload_frames { env with flushNet := g } start loop album dry
          multi).media_fbids := by
  obtain ⟨hB, hS, hF, hE⟩ := c10_fold env g album dry multi
    (UF.frameIndices start loop) UF.initState UF.initState rfl rfl rfl rfl
  unfold UF.upload_frames
  dsimp only
  rw [← hB]
  by_cases hc : (UF.intTruthy multi
      && !(List.foldl (UF.processFrame env album dry multi) UF.initState
        (UF.frameIndices start loop)).media_fbids.isEmpty) = true
  · rw [if_pos hc, if_pos hc]
    refine ⟨hS, hF, ?_, ?_, rfl⟩
    · simp only [removedPaths_append]
      rw [← removedPaths_map_strip ((List.foldl (UF.processFrame env album dry multi)
          UF.initState (UF.frameIndices start loop)).events),
        hE, removedPaths_map_strip]
      simp [UF.upload_multiple_photos, removedPaths]
    · simp only [flushCalls_append]
      rw [← flushCalls_map_strip ((List.foldl (UF.processFrame env album dry multi)
          UF.initState (UF.frameIndices start loop)).events),
        hE, flushCalls_map_strip]
      simp [UF.upload_multiple_photos, flushCalls, hB]
  · rw [if_neg hc, if_neg hc]
    refine ⟨hS, hF, ?_, ?_, hB⟩
    · rw [← removedPaths_map_strip ((List.foldl (UF.processFrame env album dry multi)
          UF.initState (UF.frameIndices start loop)).events),
        hE, removedPaths_map_strip]
    · rw [← flushCalls_map_strip ((List.foldl (UF.processFrame env album dry multi)
          UF.initState (UF.frameIndices start loop)).events),
        hE, flushCalls_map_strip]
